import Mathlib

/-!
Verification development for the SmallMoleculeResearch scraper scripts
(`scrape_dlip.py`, `scrape_curated_dlip.py`, `ippidb_scraper.py`).

The scripts are shallowly embedded: a Record (one row of the pandas
DataFrame / one result dict) is a total function from field names to
optional values; the network is abstracted as a function from attempt
number to a fetch outcome; file writes are modelled as explicit steps on
a disk state.  All definitions are translated from the Python source;
line references are given next to each definition.
-/

/-- Scalar value stored in a Record field: the scripts store strings
(DLiP identifiers, error messages, scraped text) and Python ints
(iPPI-DB compound numbers). -/
inductive Val where
  | s : String → Val
  | n : Nat → Val
deriving DecidableEq

/-- A Record is a Python dict / DataFrame row: a map from field name to
optional value; a missing key and an explicit None both read back as
`none`. -/
abbrev Record : Type := String → Option Val

/-- Build a Record from an association list (a Python dict literal). -/
def recOf (pairs : List (String × Val)) : Record :=
  fun fld => (pairs.find? (fun p => p.1 == fld)).map (fun p => p.2)

/-- Outcome of one attempt of the body of the retry loop in
`scrape_compound`: either the page was fetched and parsed (carrying the
extractor output, a map from field name to scraped value), or an
exception was raised (carrying `str(e)`). -/
inductive FetchOutcome where
  | ok : (String → Option Val) → FetchOutcome
  | err : String → FetchOutcome

/-- The retry loop of `scrape_compound` (scrape_dlip.py lines 59-93,
ippidb_scraper.py lines 37-111).  `mk` builds the success record from
the extractor output, `failRec` builds the terminal failure record from
the stringified exception, `f` gives the outcome of each attempt, the
second `Nat` is the remaining number of allowed attempts
(`max_retries - attempt`).  When the remaining count is 0 the loop body
is never entered and the Python function falls off the end, returning
`None` — modelled by `none`. -/
def scrapeGo (mk : (String → Option Val) → Record) (failRec : String → Record)
    (f : Nat → FetchOutcome) : Nat → Nat → Option Record
  | _, 0 => none
  | attempt, fuel + 1 =>
    match f attempt with
    | .ok ext => some (mk ext)
    | .err e => if fuel = 0 then some (failRec e) else scrapeGo mk failRec f (attempt + 1) fuel

/-- `scrape_compound(cid, max_retries, backoff)`: runs the retry loop
starting at attempt 0.  `max_retries` is a Python int (it may be
non-positive); the loop runs `max(max_retries, 0)` times.  The backoff
sleeps do not affect the returned value and are not modelled. -/
def scrape_compound (mk : (String → Option Val) → Record) (failRec : String → Record)
    (f : Nat → FetchOutcome) (max_retries : Int) : Option Record :=
  scrapeGo mk failRec f 0 max_retries.toNat

/-- The declared DLiP field list (scrape_dlip.py lines 41-56). -/
def FIELDS : List String :=
  ["DLiP-ID", "DLiP-Mol-ID", "Vendor-ID",
   "Standard Inchi(RDKit)", "Standard Inchi Key(RDKit)", "Canonical SMILES(RDKit)",
   "SMILES(SDF)", "MW(SDF)", "MW(RDKit)", "MW Monoisotopic(RDKit)", "MolLogP(RDKit)",
   "XLogP(SDF)", "XLogP(CDK)", "ALogP(SDF)", "Num H Acceptors(SDF)", "nHAcceptors(SDF)",
   "HBA(RDKit)", "HBA Lipinski(RDKit)", "Num H Donors(SDF)", "nHDonors(SDF)",
   "HBD(RDKit)", "HBD Lipinski(RDKit)", "PSA(SDF)", "PSA(RDKit)", "RO3 Pass",
   "Num RO5 Violations", "Num Lipinski RO5 Violations", "nBonds(SDF)", "nRigidBonds(SDF)",
   "nRotatableBonds(SDF)", "nRotatableBonds(RDKit)", "nRings(SDF)", "nRings(RDKit)",
   "Aromatic Rings(RDKit)", "nAtoms(SDF)", "Heavy Atoms(RDKit)", "QED Weighted(RDKit)",
   "Molecular Formula(SDF)", "PPI Type(SDF)", "PDB ID(SDF)", "Receptor Chain(SDF)",
   "Protein Name Receptor(SDF)", "Peptide Chain(SDF)", "Protein Name Peptide(SDF)",
   "ELM ID(SDF)", "Motif Sequence(SDF)", "Physical Form Apperance(SDF)",
   "Quantity of Sample mg(SDF)", "Box Num(SDF)", "Box Position(SDF)", "fCsp3(SDF)",
   "nCarbons(SDF)", "nHetAtoms(SDF)", "nHalide(SDF)", "Year(SDF)", "error"]

/-- DLiP success record (scrape_dlip.py lines 68-86): start from
`{field: None for field in FIELDS}`, set `data["DLiP-ID"] = cid`, copy
every scraped table row whose key is in FIELDS (this can overwrite
"DLiP-ID"), finally force `data["error"] = None`.  `ext` is the map of
scraped table rows restricted to keys in FIELDS. -/
def dlipSuccess (cid : String) (ext : String → Option Val) : Record :=
  fun fld =>
    if FIELDS.contains fld then
      if fld = "error" then none
      else
        match ext fld with
        | some v => some v
        | none => if fld = "DLiP-ID" then some (.s cid) else none
    else none

/-- DLiP terminal failure record (scrape_dlip.py line 93):
`{"DLiP-ID": cid, "error": str(e)}` — only these two keys exist. -/
def dlipFail (cid : String) (e : String) : Record :=
  fun fld =>
    if fld = "DLiP-ID" then some (.s cid)
    else if fld = "error" then some (.s e) else none

/-- DLiP `scrape_compound` specialised with its record builders. -/
def dlip_scrape (f : Nat → FetchOutcome) (cid : String) (max_retries : Int) : Option Record :=
  scrape_compound (dlipSuccess cid) (dlipFail cid) f max_retries

/-- The iPPI-DB schema (ippidb_scraper.py lines 24-30). -/
def IPPIDB_COLUMNS : List String :=
  ["compound_number", "pubchem_id", "chembl_id", "chemspider_id",
   "canonical_smiles", "iupac_name", "inchi", "inchikey",
   "biochemical_tests", "cellular_tests", "pk_tests", "cytotoxicity_tests",
   "ppi_family", "best_activity", "diseases", "mmoa",
   "error"]

/-- iPPI-DB success record (ippidb_scraper.py lines 86-104): a dict
literal whose `compound_number` is always the argument `cid`, whose
`error` is None, and whose remaining declared columns come from the
parsed page. -/
def ippidbSuccess (cid : Nat) (ext : String → Option Val) : Record :=
  fun fld =>
    if fld = "compound_number" then some (.n cid)
    else if fld = "error" then none
    else if IPPIDB_COLUMNS.contains fld then ext fld
    else none

/-- iPPI-DB terminal failure record (ippidb_scraper.py line 111):
`{"compound_number": cid, "error": str(e)}`. -/
def ippidbFail (cid : Nat) (e : String) : Record :=
  fun fld =>
    if fld = "compound_number" then some (.n cid)
    else if fld = "error" then some (.s e) else none

/-- iPPI-DB `scrape_compound` specialised with its record builders. -/
def ippidb_scrape (f : Nat → FetchOutcome) (cid : Nat) (max_retries : Int) : Option Record :=
  scrape_compound (ippidbSuccess cid) (ippidbFail cid) f max_retries

/-- A fetch-outcome stream whose every attempt raises. -/
def allFailOutcomes : Nat → FetchOutcome := fun _ => .err "timeout"

/-- Digit characters shared by the base-36 encoder (scrape_dlip.py line
21) and Python's uppercase hex formatting (its first 16 characters). -/
def digitChars : List Char := "0123456789ABCDEFGHIJKLMNOPQRSTUVWXYZ".toList

/-- Digit value to character, `chars[r]`. -/
def digitToChar (d : Nat) : Char := digitChars.getD d '0'

/-- Character to digit value, as used by Python's `int(s, base)`. -/
def charToDigit (c : Char) : Nat := digitChars.indexOf c

/-- The `while n > 0: n, r = divmod(n, b); digits.append(r)` loop
(scrape_dlip.py lines 25-27), producing the base-`b` digits of `n`
little-endian.  The first argument is fuel; `n` itself is enough fuel
since the value strictly decreases each iteration. -/
def baux (b : Nat) : Nat → Nat → List Nat
  | 0, _ => []
  | fuel + 1, n => if n = 0 then [] else n % b :: baux b fuel (n / b)

/-- `int_to_base36` (scrape_dlip.py lines 20-28): "0" for zero, else the
collected digits reversed into big-endian order. -/
def int_to_base36 (n : Nat) : List Char :=
  if n = 0 then ['0'] else ((baux 36 n n).map digitToChar).reverse

/-- Python's `str.zfill(w)`: left-pad with zero characters to width `w`. -/
def zfill (w : Nat) (s : List Char) : List Char :=
  List.replicate (w - s.length) '0' ++ s

/-- `int_to_hex` (scrape_curated_dlip.py lines 29-30):
`format(n, "05X")`, i.e. the big-endian uppercase hex digits zero-padded
to width 5 (and never truncated). -/
def int_to_hex (n : Nat) : List Char :=
  zfill 5 (((baux 16 n n).map digitToChar).reverse)

/-- Python's `int(s, b)` on a digit string: left fold accumulating
`acc * b + digit`. -/
def decodeBase (b : Nat) (s : List Char) : Nat :=
  s.foldl (fun acc c => acc * b + charToDigit c) 0

/-- `int("00BQL", 36)`, the inclusive end of the DLiP ID range
(scrape_dlip.py line 32). -/
def dlipEnd : Nat := decodeBase 36 "00BQL".toList

/-- The token emitted for index `i`: `f"D{int_to_base36(i).zfill(5)}"`
(scrape_dlip.py line 37). -/
def dlipToken (i : Nat) : String := String.mk ('D' :: zfill 5 (int_to_base36 i))

/-- `generate_ids(num)` (scrape_dlip.py lines 30-38): tokens for indices
`start .. end` inclusive (start = int("00000",36) = 0), cut off after
`num` items when a cap is given. -/
def generate_ids (num : Option Nat) : List String :=
  ((List.range (dlipEnd + 1)).take (num.getD (dlipEnd + 1))).map dlipToken

/-- `set(df[df["error"].isna()]["DLiP-ID"].dropna())` (scrape_dlip.py
line 108): the string identifiers of rows whose error is null. -/
def scraped (df : List Record) : List String :=
  df.filterMap (fun r =>
    if r "error" = none then
      match r "DLiP-ID" with
      | some (.s c) => some c
      | _ => none
    else none)

/-- `to_scrape = [cid for cid in all_cids if cid not in scraped]`
(scrape_dlip.py line 109). -/
def to_scrape (df : List Record) (num : Option Nat) : List String :=
  (generate_ids num).filter (fun cid => decide (cid ∉ scraped df))

/-- One thread-pool submission is made per element of `to_scrape`
(scrape_dlip.py line 138), so the number of fetches of the primary
dispatch pass is its length. -/
def primaryFetchCount (df : List Record) (num : Option Nat) : Nat :=
  (to_scrape df num).length

/-- `df[df["error"].isna()]["compound_number"].tolist()`
(ippidb_scraper.py line 126). -/
def ippidbSuccessful (df : List Record) : List Nat :=
  df.filterMap (fun r =>
    if r "error" = none then
      match r "compound_number" with
      | some (.n c) => some c
      | _ => none
    else none)

/-- `to_scrape = list(all_cids - set(successful))` with
`all_cids = set(range(1, num_compounds + 1))` (ippidb_scraper.py lines
124-129); the set difference is modelled as a filter (only membership
and emptiness matter downstream). -/
def ippidb_to_scrape (df : List Record) (num_compounds : Nat) : List Nat :=
  (List.range' 1 num_compounds).filter (fun c => decide (c ∉ ippidbSuccessful df))

/-- A one-row Dataset in which the single enumerated identifier D00000
has been fetched successfully. -/
def dfAllDone : List Record :=
  [recOf [("DLiP-ID", .s "D00000"), ("Canonical SMILES(RDKit)", .s "CCO")]]

/-- A one-row iPPI-DB Dataset in which compound 1 has been fetched
successfully. -/
def dfAllDoneIppidb : List Record :=
  [recOf [("compound_number", .n 1), ("canonical_smiles", .s "CCO")]]

/-- Comparison of two scalar values as pandas `sort_values` orders a
homogeneous key column (each script's key column holds one type:
strings for DLiP, ints for iPPI-DB). -/
def valLe : Val → Val → Bool
  | .s a, .s b => decide (a ≤ b)
  | .s _, .n _ => false
  | .n _, .s _ => true
  | .n a, .n b => decide (a ≤ b)

/-- Key comparison lifted to optional values; pandas sorts NaN keys
last (`na_position="last"`). -/
def optValLe : Option Val → Option Val → Bool
  | none, none => true
  | none, some _ => false
  | some _, none => true
  | some a, some b => valLe a b

/-- The row order `df.sort_values(by=idf)` establishes. -/
abbrev keyRel (idf : String) (r₁ r₂ : Record) : Prop :=
  optValLe (r₁ idf) (r₂ idf) = true

/-- `new_df[idf]`: the key column of a batch. -/
def batchKeys (idf : String) (batch : List Record) : List (Option Val) :=
  batch.map (fun r => r idf)

/-- The upsert step of `flush_batch`:
`df = pd.concat([df[~df[idf].isin(new_df[idf])], new_df])`
(scrape_dlip.py line 126, scrape_curated_dlip.py line 116,
ippidb_scraper.py lines 141-142).  The column-set reconciliation of
lines 120-125 is the identity here because Records are total functions
on field names. -/
def mergeUpsert (idf : String) (df batch : List Record) : List Record :=
  df.filter (fun r => decide (r idf ∉ batchKeys idf batch)) ++ batch

/-- `flush_batch`: upsert then `df.sort_values(by=idf)` before saving
(scrape_dlip.py lines 126-132); the resulting in-memory/persisted
Dataset. -/
def flush_batch (idf : String) (df batch : List Record) : List Record :=
  List.insertionSort (keyRel idf) (mergeUpsert idf df batch)

/-- The final sort-and-save (scrape_dlip.py lines 171-174,
scrape_curated_dlip.py lines 170-174). -/
def final_save (idf : String) (df : List Record) : List Record :=
  List.insertionSort (keyRel idf) df

/-- A uniquely keyed one-row Dataset holding a successful Record for
A00001. -/
def dfC1 : List Record :=
  [recOf [("DLiP-ID", .s "A00001"), ("Canonical SMILES(RDKit)", .s "CCO")]]

/-- A batch of N = 2 new Records: a re-fetch of A00001 that failed, and
a fresh B00001. -/
def batchC1 : List Record :=
  [recOf [("DLiP-ID", .s "A00001"), ("error", .s "timeout")],
   recOf [("DLiP-ID", .s "B00001")]]

/-- `result["DLiP-ID"] = futures[f]` / `= cid`: overwrite the key field
of a completed Record with the Identifier it was submitted under. -/
def restamp (idf : String) (v : Val) (r : Record) : Record :=
  fun fld => if fld = idf then some v else r fld

/-- The DLiP result-collection loop (scrape_dlip.py lines 138-142,
scrape_curated_dlip.py lines 149-151): each completed Record is
re-stamped with its submitted Identifier before accumulation.
Completion order is abstracted by the order of `ids`. -/
def dlipDispatch (fetch : String → Record) (ids : List String) : List Record :=
  ids.map (fun cid => restamp "DLiP-ID" (.s cid) (fetch cid))

/-- The iPPI-DB result-collection loop (ippidb_scraper.py lines
150-153): the Fetcher result is appended unchanged — there is no
re-stamping. -/
def ippidbDispatch (fetch : Nat → Record) (ids : List Nat) : List Record :=
  ids.map fetch

/-- A Fetcher whose returned Record carries identifier 999 whatever it
was asked for. -/
def fetchWrongId : Nat → Record := fun _ => recOf [("compound_number", .n 999)]

/-- `MAX_WORKERS` (scrape_dlip.py line 17). -/
def MAX_WORKERS : Nat := 10

/-- `CHECKPOINT_EVERY` (scrape_dlip.py line 14). -/
def CHECKPOINT_EVERY : Nat := 50

/-- The worker count of the DLiP final retry pool:
`ThreadPoolExecutor(max_workers=MAX_WORKERS // 2)` (scrape_dlip.py
line 161). -/
def dlipRetryWorkers : Nat := MAX_WORKERS / 2

/-- The primary iPPI-DB pool size (ippidb_scraper.py line 149). -/
def ippidbPrimaryWorkers : Nat := 10

/-- The iPPI-DB final retry pool size (ippidb_scraper.py line 178). -/
def ippidbRetryWorkers : Nat := 5

/-- The checkpoint interval used inside the DLiP final retry loop
(scrape_dlip.py line 167) — the same `CHECKPOINT_EVERY` constant and the
same `flush_batch` as the primary loop. -/
def dlipRetryCheckpointEvery : Nat := CHECKPOINT_EVERY

/-- `failed_df = df[df["error"].notna()]` followed by
`failed_df[idf].tolist()` (scrape_dlip.py lines 157-162,
ippidb_scraper.py lines 174-179): the identifiers the final retry pass
is dispatched over. -/
def failedIds (idf : String) (df : List Record) : List Val :=
  (df.filter (fun r => decide (r "error" ≠ none))).filterMap (fun r => r idf)

/-- A Dataset with one failed row, for the C7 witness. -/
def dfOneFailed : List Record :=
  [recOf [("DLiP-ID", .s "A00001"), ("error", .s "timeout")]]

/-- `TSV_FILE` (scrape_dlip.py line 12). -/
def TSV_FILE : String := "dlip_compounds.tsv"

/-- `PKL_FILE` (scrape_dlip.py line 13). -/
def PKL_FILE : String := "dlip_compounds.pkl"

/-- State of one on-disk file: fully written with dataset version `d`,
or truncated/partially written (a file opened for writing whose content
is not yet complete). -/
inductive FileState where
  | intact : Nat → FileState
  | torn : FileState
deriving DecidableEq

/-- A non-atomic file write is two observable steps: opening the path
for writing truncates it, then the content is written out. -/
inductive WriteStep where
  | truncate : String → WriteStep
  | fill : String → Nat → WriteStep
deriving DecidableEq

/-- The file system, as far as the checkpoint store sees it. -/
abbrev Disk : Type := String → FileState

def applyStep (disk : Disk) : WriteStep → Disk
  | .truncate p => fun q => if q = p then .torn else disk q
  | .fill p d => fun q => if q = p then .intact d else disk q

def runSteps (disk : Disk) (steps : List WriteStep) : Disk :=
  steps.foldl applyStep disk

/-- The write steps `flush_batch` performs to persist dataset version
`d`: `df.to_csv(TSV_FILE, ...)` then `df.to_pickle(PKL_FILE)`
(scrape_dlip.py lines 131-132) — both open the destination path itself
for writing; there is no temporary file and no rename. -/
def persistSteps (d : Nat) : List WriteStep :=
  [.truncate TSV_FILE, .fill TSV_FILE d, .truncate PKL_FILE, .fill PKL_FILE d]

/-- `pd.read_pickle(PKL_FILE)` at startup (scrape_dlip.py lines 96-97):
loads the dataset iff the pickle file is intact. -/
def loadStore (disk : Disk) : Option Nat :=
  match disk PKL_FILE with
  | .intact d => some d
  | .torn => none

/-- The file target of a write step. -/
def stepTarget : WriteStep → String
  | .truncate p => p
  | .fill p _ => p

/-- A disk holding dataset version 0 everywhere (the previously
persisted state). -/
def disk0 : Disk := fun _ => .intact 0

/-- `MAX_CONSECUTIVE_FAILS` as configured in the source
(scrape_curated_dlip.py line 16); the claimed scenario configures the
same mechanism with the value 3. -/
def MAX_CONSECUTIVE_FAILS : Nat := 20

/-- The sequential per-namespace scan loop of scrape_curated_dlip.py
lines 139-158 with no `--num_compounds` cap: consume successive fetch
outcomes (`true` = success, `false` = failure) starting from
consecutive-failure counter `c`; before each fetch the loop breaks if
the counter has reached `maxFails`; after a fetch the counter resets to
0 on success and increments on failure.  Returns the outcomes of the
fetches actually performed, in order of the ascending identifier
sequence. -/
def namespaceScan (maxFails : Nat) : List Bool → Nat → List Bool
  | [], _ => []
  | o :: rest, c =>
    if maxFails ≤ c then []
    else o :: namespaceScan maxFails rest (if o then 0 else c + 1)

/-- The `consecutive_fails` counter after consuming a list of outcomes
from starting value `c` (scrape_curated_dlip.py lines 153-158). -/
def consecFails : Nat → List Bool → Nat
  | c, [] => c
  | c, o :: rest => consecFails (if o then 0 else c + 1) rest

/-- An outcome sequence with one success, then three straight failures,
then more data: the scan must stop after the third failure. -/
def osWitnessC8 : List Bool := [true, false, false, false, true]

-- Theorems start here.

theorem scrapeGo_isSome (mk : (String → Option Val) → Record) (failRec : String → Record)
    (f : Nat → FetchOutcome) :
    ∀ fuel a, 1 ≤ fuel → (scrapeGo mk failRec f a fuel).isSome := by
  intro fuel
  induction fuel with
  | zero => intro a h; omega
  | succ k ih =>
    intro a _
    show (scrapeGo mk failRec f a (k + 1)).isSome
    rw [scrapeGo]
    cases f a with
    | ok ext => rfl
    | err e =>
      by_cases hk : k = 0
      · simp [hk]
      · simpa [hk] using ih (a + 1) (Nat.one_le_iff_ne_zero.mpr hk)

theorem scrapeGo_allfail (mk : (String → Option Val) → Record) (failRec : String → Record)
    (f : Nat → FetchOutcome) (msg : Nat → String) :
    ∀ fuel a, 1 ≤ fuel → (∀ i, a ≤ i → i < a + fuel → f i = .err (msg i)) →
      scrapeGo mk failRec f a fuel = some (failRec (msg (a + fuel - 1))) := by
  intro fuel
  induction fuel with
  | zero => intro a h; omega
  | succ k ih =>
    intro a _ hfail
    rw [scrapeGo]
    rw [hfail a (le_refl a) (by omega)]
    by_cases hk : k = 0
    · subst hk; simp
    · have hk1 : 1 ≤ k := Nat.one_le_iff_ne_zero.mpr hk
      have step : ∀ i, a + 1 ≤ i → i < a + 1 + k → f i = .err (msg i) := by
        intro i h₁ h₂
        exact hfail i (by omega) (by omega)
      have hrec := ih (a + 1) hk1 step
      have harg : a + 1 + k - 1 = a + (k + 1) - 1 := by omega
      rw [harg] at hrec
      simp only [hk, if_false, hrec]

/-- Claim C10: `scrape_compound` returns a Record for every input exactly
when `max_retries ≥ 1`; for `max_retries ≤ 0` the retry loop never runs
and the function returns Python's implicit None, modelled as `none`. -/
theorem scrape_compound_total_iff (f : Nat → FetchOutcome) (cid : String) (cidN : Nat)
    (max_retries : Int) :
    ((dlip_scrape f cid max_retries).isSome ↔ 1 ≤ max_retries) ∧
    ((ippidb_scrape f cidN max_retries).isSome ↔ 1 ≤ max_retries) := by
  have key : ∀ (mk : (String → Option Val) → Record) (failRec : String → Record),
      (scrape_compound mk failRec f max_retries).isSome ↔ 1 ≤ max_retries := by
    intro mk failRec
    constructor
    · intro h
      by_contra hlt
      have h0 : max_retries.toNat = 0 := by omega
      rw [scrape_compound, h0] at h
      simp [scrapeGo] at h
    · intro h
      exact scrapeGo_isSome mk failRec f max_retries.toNat 0 (by omega)
  exact ⟨key _ _, key _ _⟩

/-- Witness for C10 at concrete inputs. -/
theorem scrape_compound_total_iff_witness :
    ((dlip_scrape allFailOutcomes "D00000" 3).isSome ↔ 1 ≤ (3 : Int)) ∧
    ((ippidb_scrape allFailOutcomes 1 3).isSome ↔ 1 ≤ (3 : Int)) :=
  scrape_compound_total_iff allFailOutcomes "D00000" 1 3

/-- Claim C3: when every one of the `max_retries` attempts fails, the
returned Record carries the Identifier, `error` holds the stringified
reason of the last failing attempt, and every other field reads `none`
— no field is populated from a failed attempt.  Shown for the DLiP and
the iPPI-DB flavour of `scrape_compound`. -/
theorem scrape_compound_exhaustion (f : Nat → FetchOutcome) (cid : String) (cidN : Nat)
    (max_retries : Int) (msg : Nat → String) (hmr : 1 ≤ max_retries)
    (hfail : ∀ i : Nat, (i : Int) < max_retries → f i = .err (msg i)) :
    (∃ r, dlip_scrape f cid max_retries = some r ∧
      r "error" = some (.s (msg (max_retries.toNat - 1))) ∧
      r "DLiP-ID" = some (.s cid) ∧
      ∀ fld, fld ≠ "DLiP-ID" → fld ≠ "error" → r fld = none) ∧
    (∃ r, ippidb_scrape f cidN max_retries = some r ∧
      r "error" = some (.s (msg (max_retries.toNat - 1))) ∧
      r "compound_number" = some (.n cidN) ∧
      ∀ fld, fld ≠ "compound_number" → fld ≠ "error" → r fld = none) := by
  have hfail' : ∀ i, 0 ≤ i → i < 0 + max_retries.toNat → f i = .err (msg i) := by
    intro i _ hi
    exact hfail i (by omega)
  have h1 : 1 ≤ max_retries.toNat := by omega
  constructor
  · refine ⟨dlipFail cid (msg (max_retries.toNat - 1)), ?_, ?_, ?_, ?_⟩
    · have := scrapeGo_allfail (dlipSuccess cid) (dlipFail cid) f msg max_retries.toNat 0 h1 hfail'
      simpa [dlip_scrape, scrape_compound] using this
    · simp [dlipFail]
    · simp [dlipFail]
    · intro fld h₁ h₂; simp [dlipFail, h₁, h₂]
  · refine ⟨ippidbFail cidN (msg (max_retries.toNat - 1)), ?_, ?_, ?_, ?_⟩
    · have := scrapeGo_allfail (ippidbSuccess cidN) (ippidbFail cidN) f msg max_retries.toNat 0 h1 hfail'
      simpa [ippidb_scrape, scrape_compound] using this
    · simp [ippidbFail]
    · simp [ippidbFail]
    · intro fld h₁ h₂; simp [ippidbFail, h₁, h₂]

/-- Witness for C3: three attempts, all raising "timeout". -/
theorem scrape_compound_exhaustion_witness :
    (∃ r, dlip_scrape allFailOutcomes "D00001" 3 = some r ∧
      r "error" = some (.s "timeout") ∧
      r "DLiP-ID" = some (.s "D00001") ∧
      ∀ fld, fld ≠ "DLiP-ID" → fld ≠ "error" → r fld = none) ∧
    (∃ r, ippidb_scrape allFailOutcomes 7 3 = some r ∧
      r "error" = some (.s "timeout") ∧
      r "compound_number" = some (.n 7) ∧
      ∀ fld, fld ≠ "compound_number" → fld ≠ "error" → r fld = none) :=
  scrape_compound_exhaustion allFailOutcomes "D00001" 7 3 (fun _ => "timeout")
    (by omega) (fun i _ => rfl)

theorem charToDigit_digitToChar : ∀ d, d < 36 → charToDigit (digitToChar d) = d := by decide

theorem baux_digit_lt (b : Nat) (hb : 0 < b) :
    ∀ fuel n d, d ∈ baux b fuel n → d < b := by
  intro fuel
  induction fuel with
  | zero => intro n d h; simp [baux] at h
  | succ k ih =>
    intro n d h
    rw [baux] at h
    by_cases hn : n = 0
    · simp [hn] at h
    · simp only [hn, if_false, List.mem_cons] at h
      rcases h with h | h
      · subst h; exact Nat.mod_lt _ hb
      · exact ih _ _ h

theorem foldlNat_baux (b : Nat) (hb : 2 ≤ b) :
    ∀ fuel n, n ≤ fuel →
      ((baux b fuel n).reverse).foldl (fun a d => a * b + d) 0 = n := by
  intro fuel
  induction fuel with
  | zero =>
    intro n h
    have : n = 0 := by omega
    subst this
    rfl
  | succ k ih =>
    intro n hn
    rw [baux]
    by_cases h0 : n = 0
    · simp [h0]
    · simp only [h0, if_false, List.reverse_cons]
      rw [List.foldl_append]
      have hlt : n / b < n := Nat.div_lt_self (Nat.pos_of_ne_zero h0) (by omega)
      rw [ih (n / b) (by omega)]
      show n / b * b + n % b = n
      rw [Nat.mul_comm]
      exact Nat.div_add_mod n b

theorem baux_length_le (b : Nat) (hb : 2 ≤ b) :
    ∀ fuel n k, n ≤ fuel → n < b ^ k → (baux b fuel n).length ≤ k := by
  intro fuel
  induction fuel with
  | zero => intro n k _ _; simp [baux]
  | succ fl ih =>
    intro n k hn hk
    rw [baux]
    by_cases h0 : n = 0
    · simp [h0]
    · simp only [h0, if_false, List.length_cons]
      cases k with
      | zero =>
        rw [pow_zero] at hk
        omega
      | succ j =>
        have hdivlt : n / b < b ^ j := by
          rw [Nat.div_lt_iff_lt_mul (by omega)]
          calc n < b ^ (j + 1) := hk
          _ = b ^ j * b := by rw [pow_succ]
        have hsmall : n / b < n := Nat.div_lt_self (Nat.pos_of_ne_zero h0) (by omega)
        have := ih (n / b) j (by omega) hdivlt
        omega

theorem decode_pad (b : Nat) (k : Nat) (l : List Char) :
    decodeBase b (List.replicate k '0' ++ l) = decodeBase b l := by
  unfold decodeBase
  rw [List.foldl_append]
  congr 1
  induction k with
  | zero => rfl
  | succ j ih =>
    rw [List.replicate_succ, List.foldl_cons]
    have h0 : 0 * b + charToDigit '0' = 0 := by
      have : charToDigit '0' = 0 := by decide
      rw [this]
      omega
    rw [h0]
    exact ih

theorem decode_map_digits (b : Nat) (hb : b ≤ 36) :
    ∀ (ds : List Nat) (acc : Nat), (∀ d ∈ ds, d < b) →
      (ds.map digitToChar).foldl (fun a c => a * b + charToDigit c) acc =
        ds.foldl (fun a d => a * b + d) acc := by
  intro ds
  induction ds with
  | nil => intro acc _; rfl
  | cons d ds ih =>
    intro acc h
    simp only [List.map_cons, List.foldl_cons]
    rw [charToDigit_digitToChar d (lt_of_lt_of_le (h d (List.mem_cons_self d ds)) hb)]
    exact ih _ (fun x hx => h x (List.mem_cons_of_mem d hx))

theorem decode_zfill_enc36 (n : Nat) : decodeBase 36 (zfill 5 (int_to_base36 n)) = n := by
  by_cases h0 : n = 0
  · subst h0; decide
  · unfold zfill
    rw [decode_pad]
    unfold int_to_base36
    simp only [h0, if_false]
    rw [← List.map_reverse]
    unfold decodeBase
    rw [decode_map_digits 36 (le_refl 36) _ 0
      (fun d hd => baux_digit_lt 36 (by omega) n n d (List.mem_reverse.mp hd))]
    exact foldlNat_baux 36 (by omega) n n (le_refl n)

theorem decode_hex (n : Nat) : decodeBase 16 (int_to_hex n) = n := by
  unfold int_to_hex zfill
  rw [decode_pad]
  rw [← List.map_reverse]
  unfold decodeBase
  rw [decode_map_digits 16 (by omega) _ 0
    (fun d hd => baux_digit_lt 16 (by omega) n n d (List.mem_reverse.mp hd))]
  exact foldlNat_baux 16 (by omega) n n (le_refl n)

theorem zfill_length (w : Nat) (l : List Char) (h : l.length ≤ w) :
    (zfill w l).length = w := by
  unfold zfill
  rw [List.length_append, List.length_replicate]
  omega

theorem enc36_length_le (n : Nat) (h : n < 36 ^ 5) : (int_to_base36 n).length ≤ 5 := by
  unfold int_to_base36
  by_cases h0 : n = 0
  · simp [h0]
  · simp only [h0, if_false, List.length_reverse, List.length_map]
    exact baux_length_le 36 (by omega) n n 5 (le_refl n) h

theorem generate_ids_one : generate_ids (some 1) = ["D00000"] := by
  unfold generate_ids
  rw [List.take_range]
  simp only [Option.getD_some]
  rw [show (1 : Nat) ⊓ (dlipEnd + 1) = 1 from inf_eq_left.mpr (by omega)]
  decide

theorem generate_ids_two : generate_ids (some 2) = ["D00000", "D00001"] := by
  unfold generate_ids
  rw [List.take_range]
  simp only [Option.getD_some]
  rw [show (2 : Nat) ⊓ (dlipEnd + 1) = 2 from
    inf_eq_left.mpr (by have h : dlipEnd = 15213 := by decide
                        omega)]
  decide

/-- Claim C5: every token emitted by `generate_ids` is `dlipToken n` for
an index `n ≤ dlipEnd`; each such token has exactly width 6 (the `D`
namespace letter plus 5 digits) and decoding its digit part with
`int(s, 36)` recovers `n`; `int_to_hex` has exact width 5 for every
index below `16^5` and always decodes back with `int(s, 16)`; and the
enumeration capped at two items yields exactly `D00000`, `D00001` (zero
encodes as the zero digit repeated to the configured width). -/
theorem enumerator_roundtrip_width :
    (∀ num tok, tok ∈ generate_ids num → ∃ n, n ≤ dlipEnd ∧ tok = dlipToken n) ∧
    (∀ n, n ≤ dlipEnd →
      (dlipToken n).length = 6 ∧ decodeBase 36 ((dlipToken n).data.drop 1) = n) ∧
    (∀ n, n < 16 ^ 5 → (int_to_hex n).length = 5) ∧
    (∀ n, decodeBase 16 (int_to_hex n) = n) ∧
    generate_ids (some 2) = ["D00000", "D00001"] := by
  refine ⟨?_, ?_, ?_, decode_hex, generate_ids_two⟩
  · intro num tok h
    unfold generate_ids at h
    obtain ⟨i, hi, rfl⟩ := List.mem_map.mp h
    have hmem : i ∈ List.range (dlipEnd + 1) := List.take_subset _ _ hi
    have hilt := List.mem_range.mp hmem
    exact ⟨i, by omega, rfl⟩
  · intro n hn
    have hlt : n < 36 ^ 5 := lt_of_le_of_lt hn (by decide)
    have hzl : (zfill 5 (int_to_base36 n)).length = 5 :=
      zfill_length 5 _ (enc36_length_le n hlt)
    constructor
    · show ('D' :: zfill 5 (int_to_base36 n)).length = 6
      rw [List.length_cons, hzl]
    · show decodeBase 36 (('D' :: zfill 5 (int_to_base36 n)).drop 1) = n
      rw [List.drop_one, List.tail_cons]
      exact decode_zfill_enc36 n
  · intro n hn
    apply zfill_length
    rw [List.length_reverse, List.length_map]
    exact baux_length_le 16 (by omega) n n 5 (le_refl n) hn

/-- Witness for C5 at index 7 for both schemes. -/
theorem enumerator_roundtrip_width_witness :
    ((dlipToken 7).length = 6 ∧ decodeBase 36 ((dlipToken 7).data.drop 1) = 7) ∧
    ((int_to_hex 7).length = 5) :=
  ⟨enumerator_roundtrip_width.2.1 7 (by decide),
   enumerator_roundtrip_width.2.2.1 7 (by decide)⟩

/-- Claim C2: if every enumerated Identifier is present in the Dataset
with a null error, the resume set (`to_scrape`) is empty and the primary
dispatch pass performs zero fetches; shown for the DLiP orchestrator and
for the iPPI-DB orchestrator. -/
theorem resume_set_empty_when_all_done :
    (∀ (df : List Record) (num : Option Nat),
      (∀ cid ∈ generate_ids num, ∃ r ∈ df, r "DLiP-ID" = some (.s cid) ∧ r "error" = none) →
      to_scrape df num = [] ∧ primaryFetchCount df num = 0) ∧
    (∀ (df : List Record) (n : Nat),
      (∀ cid ∈ List.range' 1 n, ∃ r ∈ df, r "compound_number" = some (.n cid) ∧ r "error" = none) →
      ippidb_to_scrape df n = [] ∧ (ippidb_to_scrape df n).length = 0) := by
  constructor
  · intro df num h
    have he : to_scrape df num = [] := by
      unfold to_scrape
      rw [List.filter_eq_nil_iff]
      intro cid hc
      obtain ⟨r, hr, hid, herr⟩ := h cid hc
      simp only [decide_eq_true_eq, not_not]
      unfold scraped
      rw [List.mem_filterMap]
      exact ⟨r, hr, by rw [herr, if_pos rfl, hid]⟩
    refine ⟨he, ?_⟩
    unfold primaryFetchCount
    rw [he]
    rfl
  · intro df n h
    have he : ippidb_to_scrape df n = [] := by
      unfold ippidb_to_scrape
      rw [List.filter_eq_nil_iff]
      intro cid hc
      obtain ⟨r, hr, hid, herr⟩ := h cid hc
      simp only [decide_eq_true_eq, not_not]
      unfold ippidbSuccessful
      rw [List.mem_filterMap]
      exact ⟨r, hr, by rw [herr, if_pos rfl, hid]⟩
    exact ⟨he, by rw [he]; rfl⟩

/-- Witness for C2: a Dataset covering the single enumerated identifier
of each script with null errors yields an empty resume set. -/
theorem resume_set_empty_witness :
    (to_scrape dfAllDone (some 1) = [] ∧ primaryFetchCount dfAllDone (some 1) = 0) ∧
    (ippidb_to_scrape dfAllDoneIppidb 1 = [] ∧ (ippidb_to_scrape dfAllDoneIppidb 1).length = 0) := by
  constructor
  · apply resume_set_empty_when_all_done.1
    intro cid hc
    rw [generate_ids_one, List.mem_singleton] at hc
    subst hc
    exact ⟨recOf [("DLiP-ID", .s "D00000"), ("Canonical SMILES(RDKit)", .s "CCO")],
      List.mem_singleton.mpr rfl, by decide, by decide⟩
  · apply resume_set_empty_when_all_done.2
    intro cid hc
    have : cid = 1 := by
      have h1 : List.range' 1 1 = [1] := rfl
      rw [h1, List.mem_singleton] at hc
      exact hc
    subst this
    exact ⟨recOf [("compound_number", .n 1), ("canonical_smiles", .s "CCO")],
      List.mem_singleton.mpr rfl, by decide, by decide⟩

theorem valLe_total (a b : Val) : valLe a b = true ∨ valLe b a = true := by
  cases a <;> cases b <;> simp [valLe] <;> exact le_total _ _

theorem valLe_trans (a b c : Val) :
    valLe a b = true → valLe b c = true → valLe a c = true := by
  cases a <;> cases b <;> cases c <;> simp [valLe] <;>
    (intro h₁ h₂; exact le_trans h₁ h₂)

theorem optValLe_total (a b : Option Val) : optValLe a b = true ∨ optValLe b a = true := by
  cases a <;> cases b <;> simp [optValLe]
  exact valLe_total _ _

theorem optValLe_trans (a b c : Option Val) :
    optValLe a b = true → optValLe b c = true → optValLe a c = true := by
  cases a <;> cases b <;> cases c <;> simp [optValLe]
  exact valLe_trans _ _ _

/-- Claim C9: every Dataset the scripts persist — each checkpoint flush
(`flush_batch`) and the final sort-and-save — is sorted ascending by
the Identifier column, for every input Dataset and batch, i.e.
regardless of the completion order in which Records arrived. -/
theorem persisted_dataset_sorted (idf : String) (df batch : List Record) :
    List.Sorted (keyRel idf) (flush_batch idf df batch) ∧
    List.Sorted (keyRel idf) (final_save idf df) := by
  haveI htot : IsTotal Record (keyRel idf) := ⟨fun a b => optValLe_total _ _⟩
  haveI htrans : IsTrans Record (keyRel idf) := ⟨fun a b c => optValLe_trans _ _ _⟩
  exact ⟨List.sorted_insertionSort _ _, List.sorted_insertionSort _ _⟩

/-- Witness for C9 at a concrete Dataset and batch. -/
theorem persisted_dataset_sorted_witness :
    List.Sorted (keyRel "DLiP-ID") (flush_batch "DLiP-ID" dfAllDone dfOneFailed) ∧
    List.Sorted (keyRel "DLiP-ID") (final_save "DLiP-ID" dfAllDone) :=
  persisted_dataset_sorted "DLiP-ID" dfAllDone dfOneFailed

theorem countP_not_split {α : Type} (p : α → Bool) (l : List α) :
    l.countP (fun a => !(p a)) + l.countP p = l.length := by
  induction l with
  | nil => rfl
  | cons a l ih =>
    rw [List.countP_cons, List.countP_cons, List.length_cons]
    cases hpa : p a <;> simp [hpa] <;> omega

/-- Claim C1 counterexample: a uniquely keyed one-row Dataset merged
with a batch of N = 2 new Records, exactly one of which re-uses the
existing Identifier A00001, yields a Dataset of 2 rows — the total size
is not unchanged as the claim states (it grows by N - 1). -/
theorem merge_size_not_unchanged :
    (dfC1.map (fun r => r "DLiP-ID")).Nodup ∧
    (batchC1.map (fun r => r "DLiP-ID")).Nodup ∧
    dfC1.countP (fun r => decide (r "DLiP-ID" ∈ batchKeys "DLiP-ID" batchC1)) = 1 ∧
    (flush_batch "DLiP-ID" dfC1 batchC1).length ≠ dfC1.length := by
  refine ⟨by decide, by decide, by decide, ?_⟩
  show (List.insertionSort (keyRel "DLiP-ID") (mergeUpsert "DLiP-ID" dfC1 batchC1)).length ≠ _
  rw [(List.perm_insertionSort (keyRel "DLiP-ID") (mergeUpsert "DLiP-ID" dfC1 batchC1)).length_eq]
  decide

/-- Claim C1 (amended): merging a batch with pairwise distinct
Identifiers, exactly one of which is already present in the uniquely
keyed Dataset, yields a Dataset of size `|df| + |batch| - 1` (the
duplicate adds no row; the other N - 1 Records each add one); the
Record now stored under the duplicated Identifier is the batch Record
itself, wholesale, with no field union with the old Record; and no
Identifier appears in more than one Record of the merged Dataset. -/
theorem merge_upsert_replaces_wholesale (idf : String) (x : Val) (df batch : List Record)
    (hdf : (df.map (fun r => r idf)).Nodup)
    (hb : (batch.map (fun r => r idf)).Nodup)
    (hone : df.countP (fun r => decide (r idf ∈ batchKeys idf batch)) = 1)
    (hxb : some x ∈ batchKeys idf batch) :
    (flush_batch idf df batch).length = df.length + batch.length - 1 ∧
    (∀ r ∈ flush_batch idf df batch, r idf = some x → r ∈ batch) ∧
    (∃ r ∈ flush_batch idf df batch, r idf = some x) ∧
    ((flush_batch idf df batch).map (fun r => r idf)).Nodup := by
  have hperm : (flush_batch idf df batch).Perm (mergeUpsert idf df batch) :=
    List.perm_insertionSort (keyRel idf) (mergeUpsert idf df batch)
  refine ⟨?_, ?_, ?_, ?_⟩
  · rw [hperm.length_eq]
    show (df.filter (fun r => decide (r idf ∉ batchKeys idf batch)) ++ batch).length = _
    rw [List.length_append]
    simp only [decide_not]
    rw [← List.countP_eq_length_filter]
    have hsplit : df.countP (fun r => !(decide (r idf ∈ batchKeys idf batch)))
        + df.countP (fun r => decide (r idf ∈ batchKeys idf batch)) = df.length := by
      simpa using countP_not_split (fun r : Record => decide (r idf ∈ batchKeys idf batch)) df
    rw [hone] at hsplit
    rw [← hsplit, Nat.add_right_comm, Nat.add_sub_cancel]
  · intro r hr hx
    rcases List.mem_append.mp (hperm.mem_iff.mp hr) with hl | hrb
    · exfalso
      have hnot := (List.mem_filter.mp hl).2
      rw [decide_eq_true_eq] at hnot
      exact hnot (hx ▸ hxb)
    · exact hrb
  · obtain ⟨b, hbmem, hbx⟩ := List.mem_map.mp hxb
    exact ⟨b, hperm.mem_iff.mpr (List.mem_append.mpr (Or.inr hbmem)), hbx⟩
  · have hmap := hperm.map (fun r => r idf)
    rw [hmap.nodup_iff]
    show (List.map _ (df.filter _ ++ batch)).Nodup
    rw [List.map_append, List.nodup_append]
    refine ⟨?_, hb, ?_⟩
    · exact List.Nodup.sublist (List.Sublist.map _ (List.filter_sublist df)) hdf
    · intro a ha hab
      obtain ⟨r, hrmem, hreq⟩ := List.mem_map.mp ha
      have hnot := (List.mem_filter.mp hrmem).2
      rw [decide_eq_true_eq] at hnot
      apply hnot
      rw [hreq]
      exact hab

/-- Witness for the amended C1 at the concrete Dataset and batch of the
counterexample. -/
theorem merge_upsert_replaces_wholesale_witness :
    (flush_batch "DLiP-ID" dfC1 batchC1).length = dfC1.length + batchC1.length - 1 ∧
    (∀ r ∈ flush_batch "DLiP-ID" dfC1 batchC1, r "DLiP-ID" = some (.s "A00001") → r ∈ batchC1) ∧
    (∃ r ∈ flush_batch "DLiP-ID" dfC1 batchC1, r "DLiP-ID" = some (.s "A00001")) ∧
    ((flush_batch "DLiP-ID" dfC1 batchC1).map (fun r => r "DLiP-ID")).Nodup :=
  merge_upsert_replaces_wholesale "DLiP-ID" (.s "A00001") dfC1 batchC1
    (by decide) (by decide) (by decide) (by decide)

theorem scrapeGo_shape (mk : (String → Option Val) → Record) (failRec : String → Record)
    (f : Nat → FetchOutcome) :
    ∀ fuel a r, scrapeGo mk failRec f a fuel = some r →
      (∃ ext, r = mk ext) ∨ (∃ e, r = failRec e) := by
  intro fuel
  induction fuel with
  | zero => intro a r h; simp [scrapeGo] at h
  | succ k ih =>
    intro a r h
    rw [scrapeGo] at h
    cases hfa : f a with
    | ok ext =>
      simp only [hfa] at h
      exact Or.inl ⟨ext, (Option.some.inj h).symm⟩
    | err e =>
      simp only [hfa] at h
      by_cases hk : k = 0
      · rw [if_pos hk] at h
        exact Or.inr ⟨e, (Option.some.inj h).symm⟩
      · rw [if_neg hk] at h
        exact ih (a + 1) r h

/-- Claim C6 counterexample: the iPPI-DB collection loop appends the
Fetcher result unchanged, so a Record whose Fetcher-reported identifier
differs from the submitted one (here 999 vs 1) is accumulated with the
wrong identifier — the dispatcher does not re-stamp. -/
theorem ippidb_dispatch_no_restamp :
    (ippidbDispatch fetchWrongId [1]).map (fun r => r "compound_number")
      = [some (.n 999)] ∧ some (Val.n 999) ≠ some (Val.n 1) :=
  ⟨by decide, by decide⟩

/-- Claim C6 (amended): the two DLiP loops re-stamp every yielded Record
with the Identifier it was submitted under, whatever the Fetcher
returned; the iPPI-DB loop performs no re-stamping, and the yielded
identifier is right only because `scrape_compound` itself sets
`compound_number` to the submitted identifier on both of its return
paths. -/
theorem dispatch_restamp_dlip_only :
    (∀ (fetch : String → Record) (ids : List String),
      (dlipDispatch fetch ids).map (fun r => r "DLiP-ID")
        = ids.map (fun cid => some (.s cid))) ∧
    (∀ (f : Nat → FetchOutcome) (cid : Nat) (max_retries : Int) (r : Record),
      ippidb_scrape f cid max_retries = some r → r "compound_number" = some (.n cid)) := by
  constructor
  · intro fetch ids
    unfold dlipDispatch
    rw [List.map_map]
    apply List.map_congr_left
    intro cid _
    show restamp "DLiP-ID" (.s cid) (fetch cid) "DLiP-ID" = some (.s cid)
    unfold restamp
    rw [if_pos rfl]
  · intro f cid mr r h
    rcases scrapeGo_shape (ippidbSuccess cid) (ippidbFail cid) f mr.toNat 0 r h with
      ⟨ext, rfl⟩ | ⟨e, rfl⟩
    · unfold ippidbSuccess
      rw [if_pos rfl]
    · unfold ippidbFail
      rw [if_pos rfl]

/-- Witness for the amended C6: the DLiP restamp law at a concrete
fetcher and id list, and the iPPI-DB fetcher law at a concrete run. -/
theorem dispatch_restamp_dlip_only_witness :
    ((dlipDispatch (fun _ => recOf []) ["D00000"]).map (fun r => r "DLiP-ID")
      = [some (.s "D00000")]) ∧
    (ippidbFail 1 "timeout") "compound_number" = some (.n 1) :=
  ⟨dispatch_restamp_dlip_only.1 (fun _ => recOf []) ["D00000"],
   dispatch_restamp_dlip_only.2 allFailOutcomes 1 1 (ippidbFail 1 "timeout") rfl⟩

/-- Claim C7: the final retry pass dispatches over exactly the
identifiers of persisted Records with a non-null error (no more, no
fewer); its DLiP pool size is `MAX_WORKERS // 2` which equals half the
primary pool clamped to at least 1 at the configured sizes, likewise
the iPPI-DB retry pool of 5 versus a primary pool of 10; and the DLiP
retry loop flushes with the same `CHECKPOINT_EVERY` interval (and the
same `flush_batch`) as the primary loop. -/
theorem final_retry_over_failed_only :
    (∀ (idf : String) (df : List Record) (v : Val),
      v ∈ failedIds idf df ↔ ∃ r ∈ df, r idf = some v ∧ r "error" ≠ none) ∧
    dlipRetryWorkers = max (MAX_WORKERS / 2) 1 ∧
    ippidbRetryWorkers = max (ippidbPrimaryWorkers / 2) 1 ∧
    dlipRetryCheckpointEvery = CHECKPOINT_EVERY := by
  refine ⟨?_, by decide, by decide, rfl⟩
  intro idf df v
  unfold failedIds
  rw [List.mem_filterMap]
  constructor
  · rintro ⟨r, hr, hv⟩
    have hm := List.mem_filter.mp hr
    refine ⟨r, hm.1, hv, ?_⟩
    have := hm.2
    rwa [decide_eq_true_eq] at this
  · rintro ⟨r, hr, hv, herr⟩
    exact ⟨r, List.mem_filter.mpr ⟨hr, decide_eq_true_eq.mpr herr⟩, hv⟩

/-- Witness for C7 at a one-row Dataset whose single Record failed. -/
theorem final_retry_over_failed_only_witness :
    ((Val.s "A00001") ∈ failedIds "DLiP-ID" dfOneFailed ↔
      ∃ r ∈ dfOneFailed, r "DLiP-ID" = some (.s "A00001") ∧ r "error" ≠ none) ∧
    dlipRetryWorkers = max (MAX_WORKERS / 2) 1 :=
  ⟨final_retry_over_failed_only.1 "DLiP-ID" dfOneFailed (.s "A00001"),
   final_retry_over_failed_only.2.1⟩

/-- Claim C4 counterexample: `flush_batch` persists with in-place
writes; crashing after the third write step of a fresh persist (the
truncation of the pickle file, before it is refilled) leaves a store
that no longer loads the previously persisted Dataset — so an
interrupted persist does corrupt the prior state, contrary to the
claimed temp-then-rename atomicity. -/
theorem persist_crash_corrupts :
    loadStore disk0 = some 0 ∧
    loadStore (runSteps disk0 ((persistSteps 1).take 3)) ≠ some 0 :=
  ⟨by decide, by decide⟩

/-- Claim C4 (amended): every write step of a persist targets the final
TSV or pickle path directly (there is no temporary file and no rename);
an uninterrupted persist loads back the newly persisted Dataset, but
there is a crash point mid-write after which the store does not load
the last fully persisted Dataset. -/
theorem persist_writes_in_place (d : Nat) (s : WriteStep) (hs : s ∈ persistSteps d) :
    (stepTarget s = TSV_FILE ∨ stepTarget s = PKL_FILE) ∧
    (∀ disk : Disk, loadStore (runSteps disk (persistSteps d)) = some d) ∧
    (∃ k, loadStore (runSteps disk0 ((persistSteps 1).take k)) ≠ some 0) := by
  refine ⟨?_, ?_, ⟨3, by decide⟩⟩
  · have hcases : s = .truncate TSV_FILE ∨ s = .fill TSV_FILE d ∨
        s = .truncate PKL_FILE ∨ s = .fill PKL_FILE d := by
      simpa [persistSteps] using hs
    rcases hcases with rfl | rfl | rfl | rfl
    · left; rfl
    · left; rfl
    · right; rfl
    · right; rfl
  · intro disk
    show loadStore (runSteps disk (persistSteps d)) = some d
    unfold runSteps persistSteps loadStore applyStep
    simp

/-- Witness for the amended C4 at the first write step. -/
theorem persist_writes_in_place_witness :
    (stepTarget (.truncate TSV_FILE) = TSV_FILE ∨ stepTarget (.truncate TSV_FILE) = PKL_FILE) ∧
    (∀ disk : Disk, loadStore (runSteps disk (persistSteps 0)) = some 0) ∧
    (∃ k, loadStore (runSteps disk0 ((persistSteps 1).take k)) ≠ some 0) :=
  persist_writes_in_place 0 (.truncate TSV_FILE) (by simp [persistSteps])

theorem namespaceScan_stop (m : Nat) (xs : List Bool) (c : Nat) (h : m ≤ c) :
    namespaceScan m xs c = [] := by
  cases xs with
  | nil => rfl
  | cons o rest =>
    rw [namespaceScan, if_pos h]

theorem namespaceScan_spec (m : Nat) :
    ∀ (xs : List Bool) (c : Nat), c < m →
      namespaceScan m xs c = xs.take (namespaceScan m xs c).length ∧
      (∀ k, k < (namespaceScan m xs c).length →
        consecFails c ((namespaceScan m xs c).take k) < m) ∧
      (namespaceScan m xs c ≠ xs → consecFails c (namespaceScan m xs c) = m) := by
  intro xs
  induction xs with
  | nil =>
    intro c hc
    refine ⟨rfl, ?_, ?_⟩
    · intro k hk
      simp [namespaceScan] at hk
    · intro hne
      exact absurd rfl hne
  | cons o rest ih =>
    intro c hc
    have hnc : ¬ m ≤ c := by omega
    set c' := if o then 0 else c + 1 with hc'
    have hcons : ∀ l : List Bool, consecFails c (o :: l) = consecFails c' l := by
      intro l
      show consecFails (if o then 0 else c + 1) l = consecFails c' l
      rw [hc']
    by_cases hlt : c' < m
    · obtain ⟨ih1, ih2, ih3⟩ := ih c' hlt
      have hval : namespaceScan m (o :: rest) c = o :: namespaceScan m rest c' := by
        rw [namespaceScan, if_neg hnc, ← hc']
      refine ⟨?_, ?_, ?_⟩
      · rw [hval, List.length_cons, List.take_succ_cons]
        exact congrArg (List.cons o) ih1
      · intro k hk
        rw [hval] at hk
        rw [hval]
        cases k with
        | zero =>
          simpa [consecFails] using hc
        | succ j =>
          rw [List.take_succ_cons, hcons]
          rw [List.length_cons] at hk
          exact ih2 j (by omega)
      · intro hne
        rw [hval] at hne ⊢
        rw [hcons]
        exact ih3 (fun hh => hne (by rw [hh]))
    · have hcm : m ≤ c' := by omega
      cases o with
      | true =>
        exfalso
        have h0 : c' = 0 := by rw [hc']; simp
        omega
      | false =>
        have hceq : c' = c + 1 := by rw [hc']; simp
        have hval : namespaceScan m (false :: rest) c = [false] := by
          rw [namespaceScan, if_neg hnc, ← hc', namespaceScan_stop m rest c' hcm]
        refine ⟨?_, ?_, ?_⟩
        · rw [hval]
          rfl
        · intro k hk
          rw [hval] at hk
          have hk0 : k = 0 := by
            simp only [List.length_cons, List.length_nil] at hk
            omega
          subst hk0
          rw [hval]
          simpa [consecFails] using hc
        · intro hne
          rw [hval, hcons]
          show c' = m
          omega

/-- Claim C8: for every sequence of per-identifier fetch outcomes, the
sequential per-namespace scan configured with `maxConsecutiveFails = 3`
performs exactly a prefix of the namespace's fetches (no fetch happens
after the halt); before each performed fetch the consecutive-failure
counter (which resets to 0 on every success) was still below 3; and
whenever the scan stops early the counter stands exactly at 3 — i.e.
the namespace halts after exactly 3 consecutive failing fetches,
regardless of prior successes. -/
theorem namespace_halts_after_three_fails (outcomes : List Bool) :
    namespaceScan 3 outcomes 0 = outcomes.take (namespaceScan 3 outcomes 0).length ∧
    (∀ k, k < (namespaceScan 3 outcomes 0).length →
      consecFails 0 ((namespaceScan 3 outcomes 0).take k) < 3) ∧
    (namespaceScan 3 outcomes 0 ≠ outcomes → consecFails 0 (namespaceScan 3 outcomes 0) = 3) :=
  namespaceScan_spec 3 outcomes 0 (by omega)

/-- Witness for C8: after a success followed by three straight
failures, the scan halts with the counter at exactly 3. -/
theorem namespace_halts_after_three_fails_witness :
    consecFails 0 (namespaceScan 3 osWitnessC8 0) = 3 :=
  (namespace_halts_after_three_fails osWitnessC8).2.2 (by decide)
